import Mathlib

/-!
Verification of the sensor-data ingestion pipeline
(`6_1.py`, `6_3.py`): a shallow embedding of the storage client
(`AsyncObjectStorage`), the directory watcher callback
(`CSVHandler.on_created`) and the per-file processing coroutine
(`CSVHandler.process_csv`), together with theorems settling the
specification's claims about them.

Python exceptions are modelled with `Except`; the filesystem locations a
run touches (source file, staged temp file, same-named archive entry,
remote object) are a record of booleans; the outcomes of the fallible
external calls (pandas read, to_csv, S3 put_object, shutil.move, unlink)
are injected through a `RunEnv` record, one field per call site.
-/

namespace SensorPipeline

/-- Python exception values that the scripts raise or catch. -/
inductive PyError where
  | valueError (msg : String)
  | fileNotFound (msg : String)
  | otherError (msg : String)
deriving DecidableEq, Repr

/-- Outcome of the `put_object` remote call inside `send_file`:
`clientError` is botocore's `ClientError` (caught by `send_file`),
`fileMissing` a `FileNotFoundError` raised while reading the local file
(also caught), `otherError` any other exception (not caught, propagates). -/
inductive RemoteOutcome where
  | success
  | clientError (code : String)
  | fileMissing (msg : String)
  | otherError (msg : String)
deriving DecidableEq, Repr

/-- One record written through the `logging` module. -/
inductive LogEntry where
  | info (msg : String)
  | error (msg : String)
deriving DecidableEq, Repr

/-- What one call of `send_file` produces: the value or exception the
caller sees, whether the remote object was written, the keys passed to
`put_object`, and the log records emitted. -/
structure SendFileOut where
  result : Except PyError Unit
  remoteWritten : Bool
  attemptedKeys : List String
  log : List LogEntry

/-- Embeds `AsyncObjectStorage.send_file` of `6_3.py` (lines 37-54).
`isFile` is `Path(local_source).is_file()`. A `ClientError` and a
`FileNotFoundError` are caught, logged and swallowed (the function then
returns `None`); any other exception propagates; a non-file path raises
`ValueError` before the upload is attempted. -/
def send_file (isFile : Bool) (remoteName : String) (outcome : RemoteOutcome) : SendFileOut :=
  if isFile then
    match outcome with
    | .success =>
        { result := .ok (), remoteWritten := true, attemptedKeys := [remoteName],
          log := [.info ("uploaded " ++ remoteName)] }
    | .clientError c =>
        { result := .ok (), remoteWritten := false, attemptedKeys := [remoteName],
          log := [.error ("upload failed: " ++ c)] }
    | .fileMissing m =>
        { result := .ok (), remoteWritten := false, attemptedKeys := [remoteName],
          log := [.error m] }
    | .otherError m =>
        { result := .error (.otherError m), remoteWritten := false,
          attemptedKeys := [remoteName], log := [] }
  else
    { result := .error (.valueError "The path is not a file."), remoteWritten := false,
      attemptedKeys := [], log := [] }

/-- A parsed CSV row as pandas sees it: one optional value per column,
`none` standing for a missing value (NaN). -/
abbrev Row := List (Option String)

/-- A row with no missing value. -/
def rowComplete (r : Row) : Bool := r.all Option.isSome

/-- Embeds `DataFrame.dropna()` as `process_csv` uses it: drop every row
that contains a missing value, keep the rest in order. -/
def dropna (t : List Row) : List Row := t.filter rowComplete

/-- The stages of one pipeline run, in the order the spec names them. -/
inductive Stage where
  | detected
  | read
  | filtered
  | staged
  | uploaded
  | archived
  | cleaned
deriving DecidableEq, Repr

/-- The full stage sequence of a run that reaches the end. -/
def allStages : List Stage :=
  [.detected, .read, .filtered, .staged, .uploaded, .archived, .cleaned]

/-- The filesystem locations one run touches. `archiveHasSameName` says
whether the archive directory holds a file with the source's name. -/
structure FsState where
  sourceExists : Bool
  tempExists : Bool
  archiveHasSameName : Bool
  remoteExists : Bool
deriving DecidableEq, Repr

/-- Outcomes of the fallible calls one `process_csv` run makes, one field
per call site: `pd.read_csv` (given the source file exists),
`DataFrame.to_csv` into the temp dir, `put_object` inside `send_file`,
`shutil.move` into the archive, `Path.unlink` of the temp file. -/
structure RunEnv where
  readResult : Except PyError (List Row)
  stageError : Option PyError
  uploadOutcome : RemoteOutcome
  moveError : Option PyError
  unlinkError : Option PyError

/-- What one `process_csv` run leaves behind: the filesystem, the stages
completed in order, the exception the outer handler caught (if any), and
every key that was passed to `put_object`. -/
structure RunResult where
  fs : FsState
  stages : List Stage
  failure : Option PyError
  uploadKeys : List String

/-- Embeds `CSVHandler.process_csv` of `6_3.py` (lines 100-131). The body
is one `try` block: read the CSV, `dropna`, write the filtered frame to
`temp_dir/<name>`, `await send_file(temp, "processed/" + name)`, move the
source into the archive (`shutil.move` overwrites an existing same-named
destination file), unlink the temp file; any exception reaching the
`except` handler is logged and ends the run. -/
def process_csv (env : RunEnv) (fs0 : FsState) (name : String) : RunResult :=
  if fs0.sourceExists then
    match env.readResult with
    | .error e => { fs := fs0, stages := [.detected], failure := some e, uploadKeys := [] }
    | .ok df =>
      let _df_filtered := dropna df
      match env.stageError with
      | some e =>
          { fs := fs0, stages := [.detected, .read, .filtered], failure := some e,
            uploadKeys := [] }
      | none =>
        let fs1 : FsState := { fs0 with tempExists := true }
        let s := send_file fs1.tempExists ("processed/" ++ name) env.uploadOutcome
        let fs2 : FsState := { fs1 with remoteExists := fs1.remoteExists || s.remoteWritten }
        match s.result with
        | .error e =>
            { fs := fs2, stages := [.detected, .read, .filtered, .staged],
              failure := some e, uploadKeys := s.attemptedKeys }
        | .ok _ =>
          match env.moveError with
          | some e =>
              { fs := fs2, stages := [.detected, .read, .filtered, .staged, .uploaded],
                failure := some e, uploadKeys := s.attemptedKeys }
          | none =>
            if fs2.sourceExists then
              let fs3 : FsState :=
                { fs2 with sourceExists := false, archiveHasSameName := true }
              match env.unlinkError with
              | some e =>
                  { fs := fs3,
                    stages := [.detected, .read, .filtered, .staged, .uploaded, .archived],
                    failure := some e, uploadKeys := s.attemptedKeys }
              | none =>
                if fs3.tempExists then
                  { fs := { fs3 with tempExists := false }, stages := allStages,
                    failure := none, uploadKeys := s.attemptedKeys }
                else
                  { fs := fs3,
                    stages := [.detected, .read, .filtered, .staged, .uploaded, .archived],
                    failure := some (.fileNotFound "unlink: temp file missing"),
                    uploadKeys := s.attemptedKeys }
            else
              { fs := fs2, stages := [.detected, .read, .filtered, .staged, .uploaded],
                failure := some (.fileNotFound "move: source file missing"),
                uploadKeys := s.attemptedKeys }
  else
    { fs := fs0, stages := [.detected],
      failure := some (.fileNotFound "read_csv: no such file"), uploadKeys := [] }

/-- A watchdog creation event as `on_created` receives it. -/
structure FsEvent where
  is_directory : Bool
  src_path : String
deriving DecidableEq, Repr

/-- The path component after the last slash (`pathlib.PurePath.name` for
the file paths watchdog delivers). -/
def pathName (p : String) : String :=
  String.mk ((p.data.reverse.takeWhile (fun c => !(c == '/'))).reverse)

/-- Index of the last dot in a list of characters, if any. -/
def rfindDot : List Char → Option Nat
  | [] => none
  | c :: rest =>
    match rfindDot rest with
    | some i => some (i + 1)
    | none => if c == '.' then some 0 else none

/-- Embeds `pathlib.PurePath.suffix` on a final path component: the text
from the last dot on, provided that dot is neither the first nor the last
character; otherwise the empty string. -/
def pathSuffix (name : String) : String :=
  match rfindDot name.data with
  | some i => if 0 < i ∧ i < name.data.length - 1 then String.mk (name.data.drop i) else ""
  | none => ""

/-- ASCII lower-casing of one character, as `str.lower()` acts on the
ASCII range (the only characters a `.csv`/`.CSV` suffix comparison uses). -/
def lowerChar (c : Char) : Char :=
  if 'A' ≤ c ∧ c ≤ 'Z' then Char.ofNat (c.toNat + 32) else c

/-- `str.lower()` restricted to ASCII case mapping. -/
def lowerStr (s : String) : String := String.mk (s.data.map lowerChar)

/-- Embeds `CSVHandler.on_created` of `6_3.py` (lines 92-98): directory
events are dropped; a file whose lower-cased suffix is `.csv` is handed to
`asyncio.run_coroutine_threadsafe(self.process_csv(path), loop)`; anything
else is dropped. The returned list holds the source paths submitted to the
event loop by this one callback (the code keeps no in-flight registry, so
the result depends on nothing but the event). -/
def on_created (e : FsEvent) : List String :=
  if e.is_directory then []
  else if lowerStr (pathSuffix (pathName e.src_path)) = ".csv" then [e.src_path]
  else []

/-- The constructor arguments of `AsyncObjectStorage` (both files). -/
structure StorageCredentialContext where
  key_id : String
  secret : String
  endpoint : String
  container : String
  ca_bundle : Option String
deriving DecidableEq, Repr

/-- A constructed `AsyncObjectStorage`: the `_auth` dict, bucket and CA
bundle it stores. -/
structure AsyncObjectStorage where
  accessKeyId : String
  secretAccessKey : String
  endpointUrl : String
  regionName : String
  bucket : String
  caBundle : Option String
deriving DecidableEq, Repr

/-- Python truthiness of an optional string: `None` and `""` are falsy. -/
def pyTruthy : Option String → Bool
  | none => false
  | some s => !(s == "")

/-- Embeds `AsyncObjectStorage.__init__` (lines 10-22 of `6_1.py`, 18-30
of `6_3.py`). `isFile` models `os.path.isfile`. The body only builds the
`_auth` dict (stripping the endpoint), stores the bucket and CA bundle and
gets a session object; it raises `FileNotFoundError` when the CA bundle is
truthy and names no existing file. No network call occurs: `get_session`
and the check are local, and connections are only created later inside
`_connect`. -/
def storage_init (ctx : StorageCredentialContext) (isFile : String → Bool) :
    Except PyError AsyncObjectStorage :=
  let client : AsyncObjectStorage :=
    { accessKeyId := ctx.key_id, secretAccessKey := ctx.secret,
      endpointUrl := ctx.endpoint.trim, regionName := "ru-7",
      bucket := ctx.container, caBundle := ctx.ca_bundle }
  if pyTruthy ctx.ca_bundle && !(isFile (ctx.ca_bundle.getD "")) then
    .error (.fileNotFound "The CA bundle file does not exist.")
  else
    .ok client

/-- Outcome of the `head_object` call inside `file_exists`: success, a
`ClientError` carrying a response code, or any other exception (which the
`except ClientError` clause does not catch). -/
inductive HeadOutcome where
  | success
  | clientError (code : String)
  | otherRaise (msg : String)
deriving DecidableEq, Repr

/-- What `file_exists` produces: the boolean or exception the caller sees,
plus the log records emitted. -/
structure ExistsOut where
  result : Except PyError Bool
  log : List LogEntry

/-- Embeds `AsyncObjectStorage.file_exists` of `6_1.py` (lines 85-95):
`head_object` succeeding yields `True`; a `ClientError` whose response
code is the string `404` yields `False`; any other `ClientError` is logged
and ALSO yields `False`; only exceptions that are not `ClientError`
propagate. -/
def file_exists (outcome : HeadOutcome) : ExistsOut :=
  match outcome with
  | .success => { result := .ok true, log := [] }
  | .clientError c =>
      if c == "404" then { result := .ok false, log := [] }
      else { result := .ok false, log := [.error ("exists check failed: " ++ c)] }
  | .otherRaise m => { result := .error (.otherError m), log := [] }

/-- A run environment in which read, filter and staging succeed and the
remote `put_object` raises a `ClientError`. -/
def uploadFailEnv : RunEnv :=
  { readResult := .ok [[some "1", some "5"], [some "2", none], [some "3", some "9"]],
    stageError := none, uploadOutcome := .clientError "InternalError",
    moveError := none, unlinkError := none }

/-- A run environment in which every call succeeds. -/
def successEnv : RunEnv :=
  { readResult := .ok [[some "1", some "5"], [some "2", none], [some "3", some "9"]],
    stageError := none, uploadOutcome := .success, moveError := none, unlinkError := none }

/-- The filesystem before a fresh run: the source file exists, no staged
temp file, no same-named archive entry, no remote object. -/
def freshFs : FsState :=
  { sourceExists := true, tempExists := false, archiveHasSameName := false,
    remoteExists := false }

/-- The filesystem before a run whose archive directory already holds a
file with the same name as the source. -/
def collideFs : FsState :=
  { sourceExists := true, tempExists := false, archiveHasSameName := true,
    remoteExists := false }

/-- C1: the claim says a run whose upload stage fails with a storage error
leaves the staged temp file in place and the source un-archived. The code
does the opposite: `send_file` catches the `ClientError` and returns
normally, so `process_csv` goes on to move the source into the archive and
to delete the staged temp file, while the remote object was never written.
This theorem evaluates the embedded run at exactly that failing input. -/
theorem C1_upload_client_error_archives_source_and_deletes_temp :
    (process_csv uploadFailEnv freshFs "a.csv").fs
      = { sourceExists := false, tempExists := false, archiveHasSameName := true,
          remoteExists := false } := rfl

/-- C2 counterexample: at a run whose upload stage fails with a
`ClientError` (the remote object is not written), the later archive stage
still executes and the run does not end in a failed state — against the
claim that any stage failure moves the run to Failed with no later stage
executing. -/
theorem C2_counterexample_run_continues_after_upload_failure :
    (process_csv uploadFailEnv freshFs "b.csv").fs.remoteExists = false
    ∧ Stage.archived ∈ (process_csv uploadFailEnv freshFs "b.csv").stages
    ∧ (process_csv uploadFailEnv freshFs "b.csv").failure = none := by
  refine ⟨rfl, ?_, rfl⟩
  decide

/-- C2 (amended): every run advances strictly forward — the completed
stages always form a prefix of Detected, Read, Filtered, Staged, Uploaded,
Archived, Cleaned — and the run ends with no caught exception exactly when
it completed every stage. (A stage failure that surfaces as an exception
therefore halts the run short of Cleaned; the one failure that does not
surface is a classified storage error during upload, which `send_file`
swallows, as the counterexample shows.) -/
theorem C2_stages_forward_and_failure_halts :
    ∀ (env : RunEnv) (fs0 : FsState) (name : String),
      (process_csv env fs0 name).stages.isPrefixOf allStages = true
      ∧ (process_csv env fs0 name).failure.isNone
          = ((process_csv env fs0 name).stages == allStages) := by
  intro env fs0 name
  obtain ⟨rr, sErr, uo, mErr, uErr⟩ := env
  obtain ⟨se, te, ae, re⟩ := fs0
  cases se <;> cases rr <;> cases sErr <;> cases uo <;> cases mErr <;> cases uErr <;>
    exact ⟨rfl, rfl⟩

/-- C3: the claim says a non-NotFound remote failure surfaces as an error
from `file_exists`. The code instead catches every `ClientError`, and on a
code other than 404 (here 403) logs it and returns `False` exactly as for
NotFound, so the caller sees no error. -/
theorem C3_unclassified_error_returns_false :
    (file_exists (.clientError "403")).result = .ok false
    ∧ (file_exists (.clientError "403")).log ≠ [] :=
  ⟨rfl, by decide⟩

/-- C4 counterexample: a run whose archive directory already holds a file
with the same name completes with no failure, the source is moved and the
same-named archive entry is (silently) overwritten — against the claim
that the archive operation fails on a name collision. -/
theorem C4_counterexample_archive_silent_overwrite :
    (process_csv successEnv collideFs "c.csv").failure = none
    ∧ (process_csv successEnv collideFs "c.csv").fs.archiveHasSameName = true
    ∧ (process_csv successEnv collideFs "c.csv").fs.sourceExists = false :=
  ⟨rfl, rfl, rfl⟩

/-- C4 (amended): whenever a run executes the archive step, the original
source file is moved — not copied — into the archive directory under its
own name: afterwards the source is gone from the watched directory and the
archive holds the name, whether or not a same-named file was already there
(an existing one is silently overwritten rather than making the run fail). -/
theorem C4_archive_moves_source_preserving_name :
    ∀ (env : RunEnv) (fs0 : FsState) (name : String),
      Stage.archived ∈ (process_csv env fs0 name).stages →
        (process_csv env fs0 name).fs.sourceExists = false
        ∧ (process_csv env fs0 name).fs.archiveHasSameName = true := by
  intro env fs0 name
  obtain ⟨rr, sErr, uo, mErr, uErr⟩ := env
  obtain ⟨se, te, ae, re⟩ := fs0
  cases se <;> cases rr <;> cases sErr <;> cases uo <;> cases mErr <;> cases uErr <;>
    intro h <;> first
      | exact ⟨rfl, rfl⟩
      | simp [process_csv, send_file, allStages] at h

/-- C4 witness: the archive-step theorem applied to a concrete fully
successful run. -/
theorem C4_archive_moves_source_preserving_name_app :
    (process_csv successEnv freshFs "w.csv").fs.sourceExists = false
    ∧ (process_csv successEnv freshFs "w.csv").fs.archiveHasSameName = true :=
  C4_archive_moves_source_preserving_name successEnv freshFs "w.csv" (by decide)

/-- C5: constructing the storage client fails (with `FileNotFoundError`)
whenever the CA bundle path is non-empty and names no existing file, and
succeeds whenever the CA bundle is absent, empty, or names an existing
file. `storage_init` is a pure function of the credential context and the
local `os.path.isfile` check: no network activity is involved before or
during construction. -/
theorem C5_ca_bundle_fail_fast :
    ∀ (ctx : StorageCredentialContext) (isFile : String → Bool),
      (∀ s, ctx.ca_bundle = some s → s ≠ "" → isFile s = false →
          ∃ m, storage_init ctx isFile = .error m)
      ∧ ((ctx.ca_bundle = none ∨ ctx.ca_bundle = some ""
            ∨ (∀ s, ctx.ca_bundle = some s → isFile s = true)) →
          ∃ c, storage_init ctx isFile = .ok c) := by
  intro ctx isFile
  constructor
  · intro s hs hne hfalse
    have hb : (s == "") = false := beq_eq_false_iff_ne.mpr hne
    have hcond : (pyTruthy ctx.ca_bundle && !(isFile (ctx.ca_bundle.getD ""))) = true := by
      simp [pyTruthy, hs, hb, hfalse]
    exact ⟨.fileNotFound "The CA bundle file does not exist.",
      by simp [storage_init, hcond]⟩
  · intro h
    have hcond : (pyTruthy ctx.ca_bundle && !(isFile (ctx.ca_bundle.getD ""))) = false := by
      rcases h with h | h | h
      · simp [pyTruthy, h]
      · simp [pyTruthy, h]
      · cases hc : ctx.ca_bundle with
        | none => simp [pyTruthy]
        | some s => simp [pyTruthy, h s hc]
    refine ⟨{ accessKeyId := ctx.key_id, secretAccessKey := ctx.secret,
              endpointUrl := ctx.endpoint.trim, regionName := "ru-7",
              bucket := ctx.container, caBundle := ctx.ca_bundle }, ?_⟩
    simp [storage_init, hcond]

/-- C5 witness: at a concrete context with a missing CA bundle file the
constructor fails, and at one with no CA bundle it succeeds. -/
theorem C5_ca_bundle_fail_fast_app :
    (∃ m, storage_init
        { key_id := "k", secret := "s", endpoint := " https://e ", container := "b",
          ca_bundle := some "/missing/root.crt" } (fun _ => false) = .error m)
    ∧ (∃ c, storage_init
        { key_id := "k", secret := "s", endpoint := "https://e", container := "b",
          ca_bundle := none } (fun _ => false) = .ok c) :=
  ⟨(C5_ca_bundle_fail_fast _ _).1 "/missing/root.crt" rfl (by decide) rfl,
   (C5_ca_bundle_fail_fast _ _).2 (Or.inl rfl)⟩

/-- C6: the claim says a second trigger for a path whose run is in flight
is rejected by an in-flight registry. The handler keeps no registry at
all: its output depends on nothing but the event, so two creation events
for the same path each submit a run — here both submissions for
`/source/a.csv` go through, racing two concurrent runs for one path. -/
theorem C6_two_triggers_same_path_both_scheduled :
    on_created { is_directory := false, src_path := "/source/a.csv" }
      ++ on_created { is_directory := false, src_path := "/source/a.csv" }
      = ["/source/a.csv", "/source/a.csv"] := rfl

/-- C7: the transform (`dropna`) keeps exactly the rows without a missing
value — a row is in the output exactly when it is an input row with no
missing cell — and applying it twice equals applying it once. -/
theorem C7_dropna_removes_incomplete_rows_and_idempotent :
    ∀ (t : List Row),
      (∀ r : Row, r ∈ dropna t ↔ (r ∈ t ∧ rowComplete r = true))
      ∧ dropna (dropna t) = dropna t := by
  intro t
  refine ⟨fun r => ?_, ?_⟩
  · simp [dropna, List.mem_filter]
  · simp [dropna, List.filter_filter]

/-- C7 witness: idempotence of the transform evaluated at a concrete
three-row table with one incomplete row. -/
theorem C7_dropna_removes_incomplete_rows_and_idempotent_app :
    dropna (dropna [[some "1", some "5"], [some "2", none], [some "3", some "9"]])
      = dropna [[some "1", some "5"], [some "2", none], [some "3", some "9"]] :=
  (C7_dropna_removes_incomplete_rows_and_idempotent _).2

/-- C8: the watcher callback ignores directory events, ignores files whose
lower-cased suffix is not `.csv`, and for a matching file submits exactly
one run, for exactly that path. -/
theorem C8_on_created_filters_and_schedules_once :
    ∀ (e : FsEvent),
      (e.is_directory = true → on_created e = [])
      ∧ (lowerStr (pathSuffix (pathName e.src_path)) ≠ ".csv" → on_created e = [])
      ∧ (e.is_directory = false → lowerStr (pathSuffix (pathName e.src_path)) = ".csv" →
          on_created e = [e.src_path]) := by
  intro e
  obtain ⟨d, p⟩ := e
  cases d
  · refine ⟨fun hd => Bool.noConfusion hd, fun hs => ?_, fun _ hs => ?_⟩
    · simp [on_created, hs]
    · simp [on_created, hs]
  · exact ⟨fun _ => rfl, fun _ => rfl, fun hd _ => Bool.noConfusion hd⟩

/-- C8 witness: a file event with an upper-case `.CSV` suffix schedules
exactly one run for its path. -/
theorem C8_on_created_filters_and_schedules_once_app :
    on_created { is_directory := false, src_path := "/watch/b.CSV" } = ["/watch/b.CSV"] :=
  (C8_on_created_filters_and_schedules_once _).2.2 rfl (by decide)

/-- C9: every key a run passes to `put_object` is the fixed prefix
`processed/` followed by the original file name. -/
theorem C9_remote_key_is_processed_slash_name :
    ∀ (env : RunEnv) (fs0 : FsState) (name : String),
      ((process_csv env fs0 name).uploadKeys).all
        (fun k => k == "processed/" ++ name) = true := by
  intro env fs0 name
  obtain ⟨rr, sErr, uo, mErr, uErr⟩ := env
  obtain ⟨se, te, ae, re⟩ := fs0
  cases se <;> cases rr <;> cases sErr <;> cases uo <;> cases mErr <;> cases uErr <;>
    simp [process_csv, send_file]

/-- C10: when the local file exists and `put_object` raises a classified
storage (client) error, `send_file` returns normally with the same `None`
result as a successful upload — the caller cannot tell them apart from the
result — and the error is only logged. -/
theorem C10_send_file_swallows_client_error :
    ∀ (key c : String),
      (send_file true key (.clientError c)).result = .ok ()
      ∧ (send_file true key (.clientError c)).result = (send_file true key .success).result
      ∧ (send_file true key (.clientError c)).log = [.error ("upload failed: " ++ c)] :=
  fun _ _ => ⟨rfl, rfl, rfl⟩

end SensorPipeline
